import Mathlib

/-!
Verification development for the BemiDB core: a shallow embedding of the
S3 storage layer (`storage_s3.go`) and of the table remapper
(`SelectRemapperTable`), together with theorems settling the frozen claims
about path agreement, cache-reload behaviour, artifact construction and
error handling.

Modelling conventions:
- machine integers (`int`, `int64`) become `Int`;
- Go's `(value, error)` returns become `Except String α` or `Option String`
  (`none` = nil error);
- backend calls (S3 list / head / upload) become explicit oracle parameters:
  each call site receives the backend's answer for that one call, so a
  function that issues one request consumes one oracle value;
- functions whose claims are temporal additionally return a trace of
  `StorageEvent`s recording, in order, the local-file and remote-object
  operations the Go code performs.
-/

/-- A lakehouse (schema, table) pair, identity-compared (Go `SchemaTable`). -/
structure SchemaTable where
  schema : String
  table : String
deriving DecidableEq, Repr

/-- The slice of Go `Config.Aws` the storage layer reads. -/
structure AwsConfig where
  s3Bucket : String
deriving DecidableEq, Repr

/-- The slice of Go `Config` read by the storage layer and the remapper. -/
structure Config where
  icebergPath : String
  aws : AwsConfig
  user : String
  encryptedPassword : String
  database : String
deriving DecidableEq, Repr

/-- Go `StorageS3.tablePrefix`: `config.IcebergPath + "/" + schema + "/" + table + "/"`. -/
def tablePrefix (config : Config) (schemaTable : SchemaTable) : String :=
  config.icebergPath ++ "/" ++ schemaTable.schema ++ "/" ++ schemaTable.table ++ "/"

/-- Go `StorageS3.fileSystemPrefix`: `"s3://" + bucket + "/"`. -/
def fileSystemPrefix (config : Config) : String :=
  "s3://" ++ config.aws.s3Bucket ++ "/"

/-- Go `StorageS3.IcebergMetadataFilePath`:
`fileSystemPrefix() + tablePrefix(schemaTable) + "metadata/v1.metadata.json"`. -/
def IcebergMetadataFilePath (config : Config) (schemaTable : SchemaTable) : String :=
  fileSystemPrefix config ++ tablePrefix config schemaTable ++ "metadata/v1.metadata.json"

/-- Go `StorageS3.CreateDataDir`. -/
def CreateDataDir (config : Config) (schemaTable : SchemaTable) : String :=
  tablePrefix config schemaTable ++ "data"

/-- Go `StorageS3.CreateMetadataDir`. -/
def CreateMetadataDir (config : Config) (schemaTable : SchemaTable) : String :=
  tablePrefix config schemaTable ++ "metadata"

/-- Modelled from the spec: the per-column statistics decoded from a written
data file (row count aside: column min/max and null counts). The concrete Go
type lives in the codec collaborator (`StorageBase`), which is not under
`src/`; the claims never inspect its contents. -/
structure ParquetStats where
  columnMinMax : List (String × String × String)
  nullCounts : List (String × Int)
deriving DecidableEq, Repr

/-- Go `ParquetFile` (the DataFileDescriptor): uuid, storage path, byte size,
row count, statistics. -/
structure ParquetFile where
  uuid : String
  path : String
  size : Int
  recordCount : Int
  stats : ParquetStats
deriving DecidableEq, Repr

/-- Go `ManifestFile`: the fields `storage_s3.go` reads and writes
(snapshot id, storage path). -/
structure ManifestFile where
  snapshotId : Int
  path : String
deriving DecidableEq, Repr

/-- Go `ManifestListFile`. -/
structure ManifestListFile where
  path : String
deriving DecidableEq, Repr

/-- Go `MetadataFile`: metadata version and storage path. -/
structure MetadataFile where
  version : Int
  path : String
deriving DecidableEq, Repr

/-- Modelled from the spec: the version pointer's "fixed well-known file name"
in the metadata directory (the Go constant `VERSION_HINT_FILE_NAME` is declared
outside `src/`). Its exact value is irrelevant to every claim. -/
def VERSION_HINT_FILE_NAME : String := "version-hint.text"

/-- One observable storage action performed by a commit-pipeline step.
`uploadObject key localName` is a single whole-object upload of the finished
local file `localName`; `streamWriteObject key` is a remote write performed
through a streaming writer opened directly against the backend. -/
inductive StorageEvent where
  | createTempFile (name : String)
  | writeLocalFile (name : String)
  | uploadObject (key : String) (localName : String)
  | streamWriteObject (key : String)
  | headObject (key : String)
  | deleteTempFile (name : String)
deriving DecidableEq, Repr

/-- The data-file name `fmt.Sprintf("00000-0-%s.parquet", uuid)`. -/
def parquetFileName (uuidStr : String) : String :=
  "00000-0-" ++ uuidStr ++ ".parquet"

/-- Go `StorageS3.CreateParquet`. The writer is opened directly against the
backend (`s3v2.NewS3FileWriterWithClient`), so the row encoding streams to the
remote object; afterwards the byte size is taken from the backend's
`HeadObject` answer and statistics are read back through a fresh reader.
Oracles: `openWriterFailure` (writer open), `writeRowsResult` (codec record
count), `headContentLength` (backend `ContentLength`), `openReaderFailure`
(reader open), `readStatsResult` (codec statistics). -/
def CreateParquet (dataDirPath : String) (uuidStr : String)
    (openWriterFailure : Option String)
    (writeRowsResult : Except String Int)
    (headContentLength : Except String Int)
    (openReaderFailure : Option String)
    (readStatsResult : Except String ParquetStats) :
    Except String ParquetFile × List StorageEvent :=
  let fileKey := dataDirPath ++ "/" ++ parquetFileName uuidStr
  match openWriterFailure with
  | some e => (.error ("Failed to open Parquet file for writing: " ++ e), [])
  | none =>
    match writeRowsResult with
    | .error e => (.error e, [.streamWriteObject fileKey])
    | .ok recordCount =>
      match headContentLength with
      | .error e => (.error ("Failed to get Parquet file info: " ++ e),
          [.streamWriteObject fileKey, .headObject fileKey])
      | .ok fileSize =>
        match openReaderFailure with
        | some e => (.error ("Failed to open Parquet file for reading: " ++ e),
            [.streamWriteObject fileKey, .headObject fileKey])
        | none =>
          match readStatsResult with
          | .error e => (.error e, [.streamWriteObject fileKey, .headObject fileKey])
          | .ok parquetStats =>
            (.ok ⟨uuidStr, fileKey, fileSize, recordCount, parquetStats⟩,
             [.streamWriteObject fileKey, .headObject fileKey])

/-- Go `StorageS3.CreateManifest`: create a scratch file (deleted on every
exit path by `defer DeleteTemporaryFile`), build the manifest into it via the
codec, upload it whole to `<metadataDir>/<uuid>-m0.avro`. -/
def CreateManifest (metadataDirPath : String) (parquetFile : ParquetFile)
    (tempFileResult : Except String String)
    (writeManifestResult : Except String ManifestFile)
    (uploadFailure : Option String) :
    Except String ManifestFile × List StorageEvent :=
  let fileName := parquetFile.uuid ++ "-m0.avro"
  let filePath := metadataDirPath ++ "/" ++ fileName
  match tempFileResult with
  | .error e => (.error e, [])
  | .ok tempFile =>
    match writeManifestResult with
    | .error e => (.error e, [.createTempFile tempFile, .deleteTempFile tempFile])
    | .ok manifestFile =>
      match uploadFailure with
      | some e => (.error ("Failed to upload file: " ++ e),
          [.createTempFile tempFile, .writeLocalFile tempFile,
           .uploadObject filePath tempFile, .deleteTempFile tempFile])
      | none =>
        (.ok ⟨manifestFile.snapshotId, filePath⟩,
         [.createTempFile tempFile, .writeLocalFile tempFile,
          .uploadObject filePath tempFile, .deleteTempFile tempFile])

/-- Go `StorageS3.CreateManifestList`: scratch file, codec write, whole-object
upload to `<metadataDir>/snap-<snapshotId>-0-<uuid>.avro`. -/
def CreateManifestList (metadataDirPath : String) (parquetFile : ParquetFile)
    (manifestFile : ManifestFile)
    (tempFileResult : Except String String)
    (writeFailure : Option String)
    (uploadFailure : Option String) :
    Except String ManifestListFile × List StorageEvent :=
  let fileName := "snap-" ++ toString manifestFile.snapshotId ++ "-0-" ++ parquetFile.uuid ++ ".avro"
  let filePath := metadataDirPath ++ "/" ++ fileName
  match tempFileResult with
  | .error e => (.error e, [])
  | .ok tempFile =>
    match writeFailure with
    | some e => (.error e, [.createTempFile tempFile, .deleteTempFile tempFile])
    | none =>
      match uploadFailure with
      | some e => (.error ("Failed to upload file: " ++ e),
          [.createTempFile tempFile, .writeLocalFile tempFile,
           .uploadObject filePath tempFile, .deleteTempFile tempFile])
      | none =>
        (.ok ⟨filePath⟩,
         [.createTempFile tempFile, .writeLocalFile tempFile,
          .uploadObject filePath tempFile, .deleteTempFile tempFile])

/-- Go `StorageS3.CreateMetadata`: scratch file, codec write, whole-object
upload to `<metadataDir>/v1.metadata.json` (version fixed at 1). -/
def CreateMetadata (metadataDirPath : String)
    (tempFileResult : Except String String)
    (writeFailure : Option String)
    (uploadFailure : Option String) :
    Except String MetadataFile × List StorageEvent :=
  let version : Int := 1
  let fileName := "v" ++ toString version ++ ".metadata.json"
  let filePath := metadataDirPath ++ "/" ++ fileName
  match tempFileResult with
  | .error e => (.error e, [])
  | .ok tempFile =>
    match writeFailure with
    | some e => (.error e, [.createTempFile tempFile, .deleteTempFile tempFile])
    | none =>
      match uploadFailure with
      | some e => (.error ("Failed to upload file: " ++ e),
          [.createTempFile tempFile, .writeLocalFile tempFile,
           .uploadObject filePath tempFile, .deleteTempFile tempFile])
      | none =>
        (.ok ⟨version, filePath⟩,
         [.createTempFile tempFile, .writeLocalFile tempFile,
          .uploadObject filePath tempFile, .deleteTempFile tempFile])

/-- Go `StorageS3.CreateVersionHint`: scratch file, codec write, whole-object
upload to `<metadataDir>/<VERSION_HINT_FILE_NAME>`. -/
def CreateVersionHint (metadataDirPath : String) (_metadataFile : MetadataFile)
    (tempFileResult : Except String String)
    (writeFailure : Option String)
    (uploadFailure : Option String) :
    Except String Unit × List StorageEvent :=
  let filePath := metadataDirPath ++ "/" ++ VERSION_HINT_FILE_NAME
  match tempFileResult with
  | .error e => (.error e, [])
  | .ok tempFile =>
    match writeFailure with
    | some e => (.error e, [.createTempFile tempFile, .deleteTempFile tempFile])
    | none =>
      match uploadFailure with
      | some e => (.error ("Failed to upload file: " ++ e),
          [.createTempFile tempFile, .writeLocalFile tempFile,
           .uploadObject filePath tempFile, .deleteTempFile tempFile])
      | none =>
        (.ok (),
         [.createTempFile tempFile, .writeLocalFile tempFile,
          .uploadObject filePath tempFile, .deleteTempFile tempFile])

/-- A trace performs no streamed remote write. -/
def noStreamWrite (trace : List StorageEvent) : Bool :=
  trace.all fun ev => match ev with
    | .streamWriteObject _ => false
    | _ => true

/-- The canonical build-locally-then-publish-once trace of the four
scratch-file based artifact writers. -/
def localThenUpload (key tempFile : String) : List StorageEvent :=
  [.createTempFile tempFile, .writeLocalFile tempFile,
   .uploadObject key tempFile, .deleteTempFile tempFile]

/-- The delimiter-constrained S3 listing answer consumed by the read path:
the `CommonPrefixes` of a `ListObjectsV2` call with `Delimiter "/"`. -/
structure S3ListResponse where
  commonPrefixes : List String
deriving DecidableEq, Repr

/-- Go `StorageS3.nestedDirectoryPrefixes`: one delimiter-constrained listing
call; a backend error is wrapped as `"Failed to list objects: <err>"` and
returned (no retry); on success the common prefixes are returned. The backend
is the oracle `backendList`, mapping the requested key namespace to that call's
answer. -/
def nestedDirectoryPrefixes (backendList : String → Except String S3ListResponse)
    (keyPfx : String) : Except String (List String) :=
  match backendList keyPfx with
  | .error e => .error ("Failed to list objects: " ++ e)
  | .ok listResponse => .ok listResponse.commonPrefixes

/-- The second-to-last piece of a `/`-separated string: Go's
`parts := strings.Split(s, "/"); parts[len(parts)-2]` (used on directory
prefixes such as `"iceberg/public/"`, which always split into at least two
pieces). -/
def dirNameOfPfx (s : String) : String :=
  let parts := s.splitOn "/"
  (parts.get? (parts.length - 2)).getD ""

/-- The per-schema loop of Go `StorageS3.IcebergSchemaTables`: for each schema
prefix, list its table prefixes (first listing error aborts the whole call) and
emit one `SchemaTable` per table prefix, in listing order. -/
def IcebergSchemaTablesLoop (backendList : String → Except String S3ListResponse) :
    List String → Except String (List SchemaTable)
  | [] => .ok []
  | schemaPfx :: rest =>
    let schema := dirNameOfPfx schemaPfx
    match nestedDirectoryPrefixes backendList schemaPfx with
    | .error e => .error e
    | .ok tablePfxs =>
      match IcebergSchemaTablesLoop backendList rest with
      | .error e => .error e
      | .ok more =>
        .ok ((tablePfxs.map fun tablePfx => ⟨schema, dirNameOfPfx tablePfx⟩) ++ more)

/-- Go `StorageS3.IcebergSchemaTables`: list the schema-level prefixes under
`config.IcebergPath + "/"`, then the table-level prefixes under each schema;
any listing error propagates unchanged. -/
def IcebergSchemaTables (config : Config)
    (backendList : String → Except String S3ListResponse) :
    Except String (List SchemaTable) :=
  let schemasPfx := config.icebergPath ++ "/"
  match nestedDirectoryPrefixes backendList schemasPfx with
  | .error e => .error e
  | .ok schemaPfxs => IcebergSchemaTablesLoop backendList schemaPfxs

/-- Key-namespace membership as the backend's `Prefix` request filter decides
it: `key` starts with `keyPfx`. -/
def keyUnderPfx (keyPfx key : String) : Bool :=
  keyPfx.data.isPrefixOf key.data

/-- The unpaginated `ListObjectsV2` call `DeleteSchemaTable` issues: the keys
of the backend store matching the requested key namespace, truncated to the
backend's single-page limit (`pageLimit`; 1000 for S3 — the Go code sets no
`MaxKeys`, never reads `IsTruncated` and sends no continuation token, so only
the first page is ever observed). -/
def listObjectsV2Keys (pageLimit : Nat) (store : List String) (keyPfx : String) :
    List String :=
  (store.filter fun key => keyUnderPfx keyPfx key).take pageLimit

/-- What one `DeleteSchemaTable` call leaves behind: the Go return value
(`err`), the backend store afterwards, and whether a `DeleteObjects` request
was issued at all. -/
structure DeleteOutcome where
  err : Option String
  store : List String
  deleteCalled : Bool
deriving DecidableEq, Repr

/-- Go `StorageS3.DeleteSchemaTable`: one unpaginated listing of the table's
key namespace, then — only when the listing returned at least one key — one
batch `DeleteObjects` for exactly those keys. Backend failures are wrapped
(`"Failed to list objects: …"`, `"Failed to delete objects: …"`); a failed
batch delete is modelled as leaving the store unchanged (the claims only
concern the success path). -/
def DeleteSchemaTable (pageLimit : Nat) (config : Config) (store : List String)
    (schemaTable : SchemaTable) (listFailure deleteFailure : Option String) :
    DeleteOutcome :=
  let tp := tablePrefix config schemaTable
  match listFailure with
  | some e => ⟨some ("Failed to list objects: " ++ e), store, false⟩
  | none =>
    let objectsToDelete := listObjectsV2Keys pageLimit store tp
    if 0 < objectsToDelete.length then
      match deleteFailure with
      | some e => ⟨some ("Failed to delete objects: " ++ e), store, true⟩
      | none => ⟨none, store.filter (fun key => !(objectsToDelete.contains key)), true⟩
    else
      ⟨none, store, false⟩

/-- Go constant `PG_SCHEMA_PUBLIC` (table remapper source). -/
def PG_SCHEMA_PUBLIC : String := "public"

/-- Modelled from the spec: the parser's extraction of a table reference —
schema qualifier, table name, optional alias (`QueryParserTable` is not under
`src/`). An empty schema string is an unqualified reference. -/
structure QuerySchemaTable where
  schema : String
  table : String
  tblAlias : String
deriving DecidableEq, Repr

/-- Modelled from the spec: the replacement reference nodes the parser can
synthesize (`QueryParserTable`'s `Make…Node` constructors are not under
`src/`). `literalRowSet rows a` is a literal row set placed under alias `a`;
`icebergTableNode p` is a lakehouse scan of metadata path `p` (with schema
inference skipped); the remaining constructors are the fixed empty /
role-attribute row sets whose row contents no claim inspects. -/
inductive Node where
  | tableRef (q : QuerySchemaTable)
  | literalRowSet (rows : List (List String)) (tblAlias : String)
  | pgStatioUserTablesNode (tblAlias : String)
  | pgRolesNode (user : String) (tblAlias : String)
  | pgShdescriptionNode (tblAlias : String)
  | icebergTableNode (metadataPath : String)
deriving DecidableEq, Repr

/-- Modelled from the spec: matched by schema-qualified identity, not name
alone. -/
def IsPgStatioUserTablesTable (q : QuerySchemaTable) : Bool :=
  q.schema == "pg_catalog" && q.table == "pg_statio_user_tables"

/-- Modelled from the spec: matched by schema-qualified identity. -/
def IsPgShadowTable (q : QuerySchemaTable) : Bool :=
  q.schema == "pg_catalog" && q.table == "pg_shadow"

/-- Modelled from the spec: matched by schema-qualified identity. -/
def IsPgRolesTable (q : QuerySchemaTable) : Bool :=
  q.schema == "pg_catalog" && q.table == "pg_roles"

/-- Modelled from the spec: matched by schema-qualified identity. -/
def IsPgShdescriptionTable (q : QuerySchemaTable) : Bool :=
  q.schema == "pg_catalog" && q.table == "pg_shdescription"

/-- Modelled from the spec: any identity qualified to the Postgres system
schema. -/
def IsTableFromPgCatalog (q : QuerySchemaTable) : Bool :=
  q.schema == "pg_catalog"

/-- Modelled from the spec: the information-schema "tables" view, by
schema-qualified identity. -/
def IsInformationSchemaTablesTable (q : QuerySchemaTable) : Bool :=
  q.schema == "information_schema" && q.table == "tables"

/-- Modelled from the spec: any identity qualified to the information
schema. -/
def IsTableFromInformationSchema (q : QuerySchemaTable) : Bool :=
  q.schema == "information_schema"

/-- Modelled from the spec: the credentials view is one synthesized row
`(user, encrypted password)` under the reference's alias. -/
def MakePgShadowNode (user encryptedPassword tblAlias : String) : Node :=
  .literalRowSet [[user, encryptedPassword]] tblAlias

/-- Modelled from the spec: one row per cached `SchemaTable`, mapped to
`(table_catalog = configured database name, table_schema, table_name)`. -/
def MakeInformationSchemaTablesNode (database : String)
    (tables : List SchemaTable) (tblAlias : String) : Node :=
  .literalRowSet (tables.map fun st => [database, st.schema, st.table]) tblAlias

/-- Modelled from the spec: empty I/O-statistics row set. -/
def MakePgStatioUserTablesNode (tblAlias : String) : Node :=
  .pgStatioUserTablesNode tblAlias

/-- Modelled from the spec: one role row with fixed attribute values. -/
def MakePgRolesNode (user tblAlias : String) : Node :=
  .pgRolesNode user tblAlias

/-- Modelled from the spec: empty shared-description row set. -/
def MakePgShdescriptionNode (tblAlias : String) : Node :=
  .pgShdescriptionNode tblAlias

/-- Modelled from the spec: a scan of the table's latest metadata file. -/
def MakeIcebergTableNode (metadataPath : String) : Node :=
  .icebergTableNode metadataPath

/-- Modelled from the spec: `QuerySchemaTable.ToIcebergSchemaTable` keeps the
(schema, table) identity. -/
def ToIcebergSchemaTable (q : QuerySchemaTable) : SchemaTable :=
  ⟨q.schema, q.table⟩

/-- The remapper state `storage_s3`'s reader consults: the cached catalog
enumeration and the configuration (Go `SelectRemapperTable`; the parser and
reader collaborators are modelled as the functions and oracle above). -/
structure SelectRemapperTable where
  icebergSchemaTables : List SchemaTable
  config : Config
deriving Repr

/-- Go `SelectRemapperTable.icebergSchemaTableExists`: linear scan with
identity comparison. -/
def icebergSchemaTableExists : List SchemaTable → SchemaTable → Bool
  | [], _ => false
  | t :: ts, schemaTable =>
    if t = schemaTable then true else icebergSchemaTableExists ts schemaTable

/-- Go `SelectRemapperTable.overrideTable`. -/
def overrideTable (_node fromClause : Node) : Node :=
  fromClause

/-- The outcome of one `RemapTable` call: the replacement node, the remapper's
cache afterwards and how many cache reloads the call performed — or a panic,
when `reloadIceberSchemaTables` passed a reader failure to `PanicIfError`. -/
inductive RemapResult where
  | ok (node : Node) (icebergSchemaTables : List SchemaTable) (reloadCount : Nat)
  | panicked (msg : String)
deriving DecidableEq, Repr

/-- Go `SelectRemapperTable.RemapTable`: the fixed classification chain.
`readerSchemaTables` is the answer `icebergReader.SchemaTables()` would give
if a reload happens during this call (at most one reload per call can occur);
an `error` answer reaches `PanicIfError` inside `reloadIceberSchemaTables` and
panics. The lakehouse scan path is `IcebergMetadataFilePath` (the reader's
`MetadataFilePath` delegates to the storage layer). -/
def RemapTable (remapper : SelectRemapperTable)
    (readerSchemaTables : Except String (List SchemaTable))
    (q : QuerySchemaTable) : RemapResult :=
  let node := Node.tableRef q
  if IsPgStatioUserTablesTable q then
    .ok (overrideTable node (MakePgStatioUserTablesNode q.tblAlias))
      remapper.icebergSchemaTables 0
  else if IsPgShadowTable q then
    .ok (overrideTable node
        (MakePgShadowNode remapper.config.user remapper.config.encryptedPassword q.tblAlias))
      remapper.icebergSchemaTables 0
  else if IsPgRolesTable q then
    .ok (overrideTable node (MakePgRolesNode remapper.config.user q.tblAlias))
      remapper.icebergSchemaTables 0
  else if IsPgShdescriptionTable q then
    .ok (overrideTable node (MakePgShdescriptionNode q.tblAlias))
      remapper.icebergSchemaTables 0
  else if IsTableFromPgCatalog q then
    .ok node remapper.icebergSchemaTables 0
  else if IsInformationSchemaTablesTable q then
    match readerSchemaTables with
    | .error e => .panicked e
    | .ok reloaded =>
      if reloaded.length = 0 then
        .ok node reloaded 1
      else
        .ok (overrideTable node
            (MakeInformationSchemaTablesNode remapper.config.database reloaded q.tblAlias))
          reloaded 1
  else if IsTableFromInformationSchema q then
    .ok node remapper.icebergSchemaTables 0
  else
    let q2 := if q.schema == "" then { q with schema := PG_SCHEMA_PUBLIC } else q
    let schemaTable := ToIcebergSchemaTable q2
    if icebergSchemaTableExists remapper.icebergSchemaTables schemaTable then
      .ok (overrideTable node
          (MakeIcebergTableNode (IcebergMetadataFilePath remapper.config schemaTable)))
        remapper.icebergSchemaTables 0
    else
      match readerSchemaTables with
      | .error e => .panicked e
      | .ok reloaded =>
        if icebergSchemaTableExists reloaded schemaTable then
          .ok (overrideTable node
              (MakeIcebergTableNode (IcebergMetadataFilePath remapper.config schemaTable)))
            reloaded 1
        else
          .ok node reloaded 1

/-- A sample configuration used by concrete witnesses and counterexamples. -/
def configEx : Config :=
  ⟨"iceberg", ⟨"bucket"⟩, "alice", "abc123", "bemidb"⟩

/-- String append helper used to normalise path concatenations. -/
theorem string_append_assoc (a b c : String) : a ++ b ++ c = a ++ (b ++ c) := by
  cases a; cases b; cases c
  exact congrArg String.mk (List.append_assoc _ _ _)

/-- C1: the scan path the rewriter computes (`IcebergMetadataFilePath`) is the
root URI (`fileSystemPrefix` plus the configured iceberg root path) followed by
`<schema>/<table>/metadata/v1.metadata.json`, and equals, character for
character, the URI of the key at which `CreateMetadata` uploads the metadata
root for the same `SchemaTable` (the returned `MetadataFile.path` and the
`uploadObject` key are the same string). -/
theorem c1_reader_writer_metadata_paths_agree (config : Config) (st : SchemaTable)
    (tempFile : String) :
    (CreateMetadata (CreateMetadataDir config st) (.ok tempFile) none none).1
        = .ok ⟨1, tablePrefix config st ++ "metadata/v1.metadata.json"⟩
    ∧ (CreateMetadata (CreateMetadataDir config st) (.ok tempFile) none none).2
        = localThenUpload (tablePrefix config st ++ "metadata/v1.metadata.json") tempFile
    ∧ IcebergMetadataFilePath config st
        = fileSystemPrefix config ++ (tablePrefix config st ++ "metadata/v1.metadata.json")
    ∧ IcebergMetadataFilePath config st
        = fileSystemPrefix config ++ config.icebergPath ++ "/" ++ st.schema ++ "/" ++ st.table
            ++ "/metadata/v1.metadata.json" := by
  have hlit : ("metadata" ++ ("/" ++ ("v" ++ (toString (1 : Int) ++ ".metadata.json"))) : String)
      = "metadata/v1.metadata.json" := by decide
  have hkey : CreateMetadataDir config st ++ "/" ++ ("v" ++ toString (1 : Int) ++ ".metadata.json")
      = tablePrefix config st ++ "metadata/v1.metadata.json" := by
    simp only [CreateMetadataDir, string_append_assoc, hlit]
  have hslash : ("/" ++ "metadata/v1.metadata.json" : String) = "/metadata/v1.metadata.json" := by
    decide
  refine ⟨?_, ?_, ?_, ?_⟩
  · simp only [CreateMetadata]
    rw [hkey]
  · simp only [CreateMetadata, localThenUpload]
    rw [hkey]
  · simp only [IcebergMetadataFilePath, string_append_assoc]
  · simp only [IcebergMetadataFilePath, tablePrefix, string_append_assoc, hslash]

/-- C2: a table reference that reaches the lakehouse-resolution stage (none of
the system-catalog predicates match) and whose (schema, table) pair is absent
from the cache triggers exactly one cache reload; if the pair is still absent
after that single reload, the input reference node is returned unmodified and
no error is raised for the miss. -/
theorem c2_lakehouse_miss_single_reload_identity (remapper : SelectRemapperTable)
    (reloaded : List SchemaTable) (q : QuerySchemaTable)
    (h1 : IsPgStatioUserTablesTable q = false) (h2 : IsPgShadowTable q = false)
    (h3 : IsPgRolesTable q = false) (h4 : IsPgShdescriptionTable q = false)
    (h5 : IsTableFromPgCatalog q = false) (h6 : IsInformationSchemaTablesTable q = false)
    (h7 : IsTableFromInformationSchema q = false)
    (hmiss : icebergSchemaTableExists remapper.icebergSchemaTables
        (ToIcebergSchemaTable
          (if q.schema == "" then { q with schema := PG_SCHEMA_PUBLIC } else q)) = false)
    (hstill : icebergSchemaTableExists reloaded
        (ToIcebergSchemaTable
          (if q.schema == "" then { q with schema := PG_SCHEMA_PUBLIC } else q)) = false) :
    RemapTable remapper (.ok reloaded) q = .ok (.tableRef q) reloaded 1 := by
  simp only [RemapTable, h1, h2, h3, h4, h5, h6, h7, Bool.false_eq_true, if_false, hmiss,
    hstill]

/-- Witness for C2 at a concrete miss. -/
theorem c2_witness :
    RemapTable ⟨[], configEx⟩ (.ok [⟨"x", "y"⟩]) ⟨"myschema", "mytable", "al"⟩
      = .ok (.tableRef ⟨"myschema", "mytable", "al"⟩) [⟨"x", "y"⟩] 1 :=
  c2_lakehouse_miss_single_reload_identity ⟨[], configEx⟩ [⟨"x", "y"⟩]
    ⟨"myschema", "mytable", "al"⟩ rfl rfl rfl rfl rfl rfl rfl (by decide) (by decide)

/-- C7: a reference to the information-schema "tables" view unconditionally
reloads the catalog cache (reload count 1, cache replaced by the reload
result); a reload yielding zero tables leaves the reference unrewritten, and
otherwise the reference becomes a literal row set with one row per cached
`SchemaTable`, mapped to (configured database name, schema, table), under the
reference's alias. -/
theorem c7_information_schema_tables_rewrite (remapper : SelectRemapperTable)
    (reloaded : List SchemaTable) (a : String) :
    RemapTable remapper (.ok reloaded) ⟨"information_schema", "tables", a⟩
      = if reloaded.length = 0 then
          .ok (.tableRef ⟨"information_schema", "tables", a⟩) reloaded 1
        else
          .ok (.literalRowSet
              (reloaded.map fun st => [remapper.config.database, st.schema, st.table]) a)
            reloaded 1 := rfl

/-- C9: a reference matching the shadow/credentials view by schema-qualified
identity becomes a synthesized literal row set of exactly one row, the
configured user name and encrypted password, under the reference's alias — in
particular (user="alice", password="abc123") for that configuration. -/
theorem c9_pg_shadow_rewrite (remapper : SelectRemapperTable)
    (readerSchemaTables : Except String (List SchemaTable)) (a : String) :
    RemapTable remapper readerSchemaTables ⟨"pg_catalog", "pg_shadow", a⟩
        = .ok (.literalRowSet [[remapper.config.user, remapper.config.encryptedPassword]] a)
            remapper.icebergSchemaTables 0
      ∧ RemapTable ⟨[], configEx⟩ readerSchemaTables ⟨"pg_catalog", "pg_shadow", a⟩
        = .ok (.literalRowSet [["alice", "abc123"]] a) [] 0 :=
  ⟨rfl, rfl⟩

/-- C5 (amended): a transient listing failure is wrapped by the storage layer
as "Failed to list objects: …" without an internal retry and propagates
unchanged through `IcebergSchemaTables`; but when such a failure occurs during
a rewriter-triggered cache reload, the reload passes it to `PanicIfError`, so
`RemapTable` panics rather than returning a wrapped error to its caller. -/
theorem c5_listing_failure_wrapped_then_panics (e : String) (keyPfx : String) :
    nestedDirectoryPrefixes (fun _ => .error e) keyPfx
        = .error ("Failed to list objects: " ++ e)
      ∧ IcebergSchemaTables configEx (fun _ => .error e)
        = .error ("Failed to list objects: " ++ e)
      ∧ RemapTable ⟨[], configEx⟩ (.error ("Failed to list objects: " ++ e))
          ⟨"sch", "tbl", "al"⟩
        = .panicked ("Failed to list objects: " ++ e) :=
  ⟨rfl, rfl, rfl⟩

/-- C5 counterexample: at a concrete transient listing failure during the
cache reload that a lakehouse-table miss triggers, `RemapTable` does not
surface a wrapped error to its caller — it panics (`PanicIfError`), refuting
"surfaced to the immediate caller as a wrapped error … does not terminate the
process". -/
theorem c5_counterexample_reload_failure_panics :
    RemapTable ⟨[], configEx⟩
        (IcebergSchemaTables configEx (fun _ => .error "connection reset"))
        ⟨"sch", "tbl", "al"⟩
      = .panicked "Failed to list objects: connection reset" := rfl

/-- C3 counterexample: a successful data-file write (`CreateParquet`) emits a
streamed remote write of the data object and neither creates a local scratch
file nor performs a whole-object upload — refuting "no artifact is ever
written to the remote backend via a partial or streamed write" for the data
file. -/
theorem c3_counterexample_parquet_is_streamed :
    (CreateParquet "iceberg/public/t/data" "u1" none (.ok 2) (.ok 100) none
        (.ok ⟨[], []⟩)).2
      = [.streamWriteObject "iceberg/public/t/data/00000-0-u1.parquet",
         .headObject "iceberg/public/t/data/00000-0-u1.parquet"]
    ∧ noStreamWrite (CreateParquet "iceberg/public/t/data" "u1" none (.ok 2) (.ok 100) none
        (.ok ⟨[], []⟩)).2 = false := ⟨rfl, rfl⟩

/-- C3 (amended): the manifest, manifest list, metadata root and version
pointer are each fully constructed in a local scratch file and sent as one
whole-object upload — on no parameter outcome does any of the four writers
perform a streamed remote write, and each successful run follows the
build-locally-then-publish-once trace; the data file, by contrast, is written
through a streaming writer opened directly against the backend
(see the counterexample). -/
theorem c3_scratch_artifacts_local_then_upload (metadataDirPath : String)
    (parquetFile : ParquetFile) (manifestFile : ManifestFile) (metadataFile : MetadataFile)
    (tempFileResult : Except String String) (writeManifestResult : Except String ManifestFile)
    (writeFailure uploadFailure : Option String) (tempFile : String) :
    noStreamWrite (CreateManifest metadataDirPath parquetFile tempFileResult
        writeManifestResult uploadFailure).2 = true
    ∧ noStreamWrite (CreateManifestList metadataDirPath parquetFile manifestFile
        tempFileResult writeFailure uploadFailure).2 = true
    ∧ noStreamWrite (CreateMetadata metadataDirPath tempFileResult writeFailure
        uploadFailure).2 = true
    ∧ noStreamWrite (CreateVersionHint metadataDirPath metadataFile tempFileResult
        writeFailure uploadFailure).2 = true
    ∧ (CreateManifest metadataDirPath parquetFile (.ok tempFile) (.ok manifestFile) none).2
      = localThenUpload (metadataDirPath ++ "/" ++ (parquetFile.uuid ++ "-m0.avro")) tempFile
    ∧ (CreateManifestList metadataDirPath parquetFile manifestFile (.ok tempFile) none none).2
      = localThenUpload
          (metadataDirPath ++ "/"
            ++ ("snap-" ++ toString manifestFile.snapshotId ++ "-0-" ++ parquetFile.uuid
                ++ ".avro"))
          tempFile
    ∧ (CreateMetadata metadataDirPath (.ok tempFile) none none).2
      = localThenUpload (metadataDirPath ++ "/" ++ ("v" ++ toString (1 : Int)
          ++ ".metadata.json")) tempFile
    ∧ (CreateVersionHint metadataDirPath metadataFile (.ok tempFile) none none).2
      = localThenUpload (metadataDirPath ++ "/" ++ VERSION_HINT_FILE_NAME) tempFile := by
  refine ⟨?_, ?_, ?_, ?_, rfl, rfl, rfl, rfl⟩
  · cases tempFileResult <;> cases writeManifestResult <;> cases uploadFailure <;> rfl
  · cases tempFileResult <;> cases writeFailure <;> cases uploadFailure <;> rfl
  · cases tempFileResult <;> cases writeFailure <;> cases uploadFailure <;> rfl
  · cases tempFileResult <;> cases writeFailure <;> cases uploadFailure <;> rfl

/-- C6: whenever the local scratch file was successfully created, each of
`CreateManifest`, `CreateManifestList`, `CreateMetadata` and
`CreateVersionHint` deletes it on every exit path — codec (encode) failure,
upload failure and success alike. -/
theorem c6_scratch_file_deleted_on_every_exit_path (metadataDirPath : String)
    (parquetFile : ParquetFile) (manifestFile : ManifestFile) (metadataFile : MetadataFile)
    (tempFile : String) (writeManifestResult : Except String ManifestFile)
    (writeFailure uploadFailure : Option String) :
    StorageEvent.deleteTempFile tempFile ∈ (CreateManifest metadataDirPath parquetFile
        (.ok tempFile) writeManifestResult uploadFailure).2
    ∧ StorageEvent.deleteTempFile tempFile ∈ (CreateManifestList metadataDirPath parquetFile
        manifestFile (.ok tempFile) writeFailure uploadFailure).2
    ∧ StorageEvent.deleteTempFile tempFile ∈ (CreateMetadata metadataDirPath
        (.ok tempFile) writeFailure uploadFailure).2
    ∧ StorageEvent.deleteTempFile tempFile ∈ (CreateVersionHint metadataDirPath metadataFile
        (.ok tempFile) writeFailure uploadFailure).2 := by
  refine ⟨?_, ?_, ?_, ?_⟩
  · cases writeManifestResult <;> cases uploadFailure <;> simp [CreateManifest]
  · cases writeFailure <;> cases uploadFailure <;> simp [CreateManifestList]
  · cases writeFailure <;> cases uploadFailure <;> simp [CreateMetadata]
  · cases writeFailure <;> cases uploadFailure <;> simp [CreateVersionHint]

/-- C8: a successful `CreateParquet` returns a descriptor whose `size` field
is exactly the byte size the storage backend's own object-metadata (head)
query reported for the just-written key — independent of anything the writer
produced (the writer's record count lands only in `recordCount`). -/
theorem c8_parquet_size_from_backend_head (dataDirPath uuidStr : String)
    (recordCount fileSize : Int) (parquetStats : ParquetStats) :
    (CreateParquet dataDirPath uuidStr none (.ok recordCount) (.ok fileSize) none
        (.ok parquetStats)).1
      = .ok ⟨uuidStr, dataDirPath ++ "/" ++ parquetFileName uuidStr, fileSize, recordCount,
          parquetStats⟩ := rfl

/-- C4 (amended): after a successful `DeleteSchemaTable`, no key under the
table's key namespace remains — provided all such keys fit in the backend's
single listing page. (The listing is not paginated, so beyond one page later
keys survive; see the counterexample.) -/
theorem c4_delete_clears_table_within_one_page (pageLimit : Nat) (config : Config)
    (store : List String) (st : SchemaTable)
    (hlen : (store.filter fun key => keyUnderPfx (tablePrefix config st) key).length
      ≤ pageLimit) :
    (DeleteSchemaTable pageLimit config store st none none).err = none
    ∧ (DeleteSchemaTable pageLimit config store st none none).store.all
        (fun key => !(keyUnderPfx (tablePrefix config st) key)) = true := by
  have htake : listObjectsV2Keys pageLimit store (tablePrefix config st)
      = store.filter fun key => keyUnderPfx (tablePrefix config st) key := by
    simp [listObjectsV2Keys, List.take_of_length_le hlen]
  simp only [DeleteSchemaTable, htake]
  split
  · refine ⟨rfl, ?_⟩
    rw [List.all_eq_true]
    intro key hk
    rw [List.mem_filter] at hk
    obtain ⟨hks, hkc⟩ := hk
    by_contra hpre
    rw [Bool.not_eq_true, Bool.not_eq_false'] at hpre
    rw [Bool.not_eq_true'] at hkc
    have hmem : key ∈ store.filter fun key => keyUnderPfx (tablePrefix config st) key :=
      List.mem_filter.mpr ⟨hks, hpre⟩
    have hcontains : (store.filter fun key => keyUnderPfx (tablePrefix config st) key).contains
        key = true := List.elem_eq_true_of_mem hmem
    rw [hkc] at hcontains
    exact Bool.false_ne_true hcontains
  · rename_i hshort
    refine ⟨rfl, ?_⟩
    rw [Nat.not_lt, Nat.le_zero, List.length_eq_zero] at hshort
    rw [List.all_eq_true]
    intro key hks
    by_contra hpre
    rw [Bool.not_eq_true, Bool.not_eq_false'] at hpre
    have hmem : key ∈ store.filter fun key => keyUnderPfx (tablePrefix config st) key :=
      List.mem_filter.mpr ⟨hks, hpre⟩
    rw [hshort] at hmem
    exact (List.not_mem_nil key) hmem

/-- Witness for C4 (amended) at a concrete store whose table keys fit in one
page. -/
theorem c4_delete_clears_table_within_one_page_witness :
    ((["iceberg/s/t/metadata/v1.metadata.json", "other/key"].filter
        fun key => keyUnderPfx (tablePrefix configEx ⟨"s", "t"⟩) key).length ≤ 1000)
    ∧ ((DeleteSchemaTable 1000 configEx
          ["iceberg/s/t/metadata/v1.metadata.json", "other/key"] ⟨"s", "t"⟩ none none).err
          = none
        ∧ (DeleteSchemaTable 1000 configEx
            ["iceberg/s/t/metadata/v1.metadata.json", "other/key"] ⟨"s", "t"⟩ none
            none).store.all
            (fun key => !(keyUnderPfx (tablePrefix configEx ⟨"s", "t"⟩) key)) = true) :=
  ⟨by decide,
    c4_delete_clears_table_within_one_page 1000 configEx
      ["iceberg/s/t/metadata/v1.metadata.json", "other/key"] ⟨"s", "t"⟩ (by decide)⟩

/-- C4 counterexample: with three objects under the table's key namespace and
a backend whose listing page holds two, a successful `DeleteSchemaTable` call
leaves the third object in place — refuting "no object stored under that
[key namespace] before the call remains (regardless of how many objects there
were)" for the unpaginated listing the code performs. -/
theorem c4_counterexample_second_page_survives :
    DeleteSchemaTable 2 configEx ["iceberg/s/t/k1", "iceberg/s/t/k2", "iceberg/s/t/k3"]
        ⟨"s", "t"⟩ none none
      = ⟨none, ["iceberg/s/t/k3"], true⟩
    ∧ keyUnderPfx (tablePrefix configEx ⟨"s", "t"⟩) "iceberg/s/t/k3" = true := by
  exact ⟨by decide, by decide⟩

/-- C10: when the backend store holds no object under the table's key
namespace, `DeleteSchemaTable` returns success without issuing any batch
delete request — the delete call is guarded on a non-empty key set. -/
theorem c10_empty_table_no_delete_request (pageLimit : Nat) (config : Config)
    (store : List String) (st : SchemaTable)
    (hempty : store.all (fun key => !(keyUnderPfx (tablePrefix config st) key)) = true) :
    DeleteSchemaTable pageLimit config store st none none = ⟨none, store, false⟩ := by
  have hfil : (store.filter fun key => keyUnderPfx (tablePrefix config st) key) = [] := by
    rw [List.filter_eq_nil_iff]
    intro a ha
    have h := (List.all_eq_true.mp hempty) a ha
    rw [Bool.not_eq_true'] at h
    simp [h]
  simp [DeleteSchemaTable, listObjectsV2Keys, hfil]

/-- Witness for C10 at a concrete store holding only foreign keys. -/
theorem c10_empty_table_no_delete_request_witness :
    DeleteSchemaTable 1000 configEx ["elsewhere/key"] ⟨"s", "t"⟩ none none
      = ⟨none, ["elsewhere/key"], false⟩ :=
  c10_empty_table_no_delete_request 1000 configEx ["elsewhere/key"] ⟨"s", "t"⟩ (by decide)
